import Mathlib

/-!
Verification of `raspberry-pi/peertalk_temp_sender.py` against its
natural-language specification.

The Python script is shallowly embedded below:
* machine integers become `Nat` with explicit `2 ^ 32` bounds where the wire
  format fixes a 32-bit field width;
* Python floats become `ℚ` (all arithmetic the claims touch — unit
  conversion, bounded offsets — is exact in both representations);
* the hardware sensor collaborator (`sm_tc`) is a parameter: a hardware
  handle is `Option (Nat → Except String ℚ)` (`none` = simulation mode,
  `some get_temp` = a board whose per-channel read either yields a Celsius
  value or raises);
* randomness (`random.uniform`) and the wall clock (`time.time`) are oracles
  passed in as functions of a step counter that advances once per observable
  call, so that the *order* of probe reads and clock samples is part of the
  model;
* the two nested `while True` loops of `main` become a trace function over a
  finite script of externally-determined events (connect outcomes, write
  outcomes, interrupt deliveries), producing the list of observable actions.
-/

namespace PeertalkTempSender

/-! ## Configuration constants (module header of the script) -/

def IPAD_PORT : Nat := 2345

def FRAME_TYPE_TEMPERATURE : Nat := 100

def PTPROTOCOL_VERSION : Nat := 1

/-! ## Frame codec (`send_peertalk_frame`)

`struct.pack('>I', v)` writes `v` as four big-endian bytes; `'>IIII'` is four
such fields in sequence.  `send_peertalk_frame` packs
`(PTPROTOCOL_VERSION, frame_type, 0, len(payload_bytes))` and appends the
payload. -/

/-- One `'>I'` field of `struct.pack`: the big-endian 4-byte encoding of `v`
(defined for all `Nat`; the Python call errors for `v ≥ 2 ^ 32`, which the
theorems exclude by hypothesis where it matters). -/
def toBE4 (v : Nat) : List Nat :=
  [v / 2 ^ 24 % 256, v / 2 ^ 16 % 256, v / 2 ^ 8 % 256, v % 256]

/-- `struct.pack('>IIII', a, b, c, d)`. -/
def packIIII (a b c d : Nat) : List Nat :=
  toBE4 a ++ toBE4 b ++ toBE4 c ++ toBE4 d

/-- The pure byte-building core of `send_peertalk_frame`, generalized over the
tag argument of the `struct.pack` call (the script passes the literal `0`
there): 16-byte header followed by the payload. -/
def encodeFrame (version frame_type tag : Nat) (payload_bytes : List Nat) : List Nat :=
  packIIII version frame_type tag payload_bytes.length ++ payload_bytes

/-- The bytes `send_peertalk_frame(sock, frame_type, payload_bytes)` writes to
the socket: version `PTPROTOCOL_VERSION`, the given frame type, tag hard-coded
to `0`, and the payload length, then the payload.  The function exposes no tag
parameter. -/
def send_peertalk_frame_bytes (frame_type : Nat) (payload_bytes : List Nat) : List Nat :=
  encodeFrame PTPROTOCOL_VERSION frame_type 0 payload_bytes

/-- `struct.unpack('>I', ...)` of four bytes. -/
def fromBE4 (b0 b1 b2 b3 : Nat) : Nat :=
  ((b0 * 256 + b1) * 256 + b2) * 256 + b3

/-- `struct.unpack('>IIII', data[:16])`: decode the 16-byte frame header into
`(version, type, tag, payloadSize)`.  Inputs shorter than 16 bytes decode to
zeros. -/
def decodeFrameHeader (bs : List Nat) : Nat × Nat × Nat × Nat :=
  match bs with
  | b0 :: b1 :: b2 :: b3 :: b4 :: b5 :: b6 :: b7 ::
    b8 :: b9 :: b10 :: b11 :: b12 :: b13 :: b14 :: b15 :: _ =>
      (fromBE4 b0 b1 b2 b3, fromBE4 b4 b5 b6 b7,
       fromBE4 b8 b9 b10 b11, fromBE4 b12 b13 b14 b15)
  | _ => (0, 0, 0, 0)

/-! ## Channel Reader (`SMTCReader.read_cht_probe` / `read_egt_probe`)

A hardware handle (`self.cht_sensor` / `self.egt_sensor`) is modelled as
`Option (Nat → Except String ℚ)`: `none` when the board is absent (simulation
mode), `some get_temp` when present, where `get_temp channel` either returns a
Celsius reading or raises.  `randVal` stands for the value
`random.uniform(0, hi)` returns on this call (so `0 ≤ randVal ≤ hi`). -/

/-- Channel mapping: probes 0-5 use channels 1-4, 7-8. -/
def egt_channel_map : List Nat := [1, 2, 3, 4, 7, 8]

/-- Channel mapping: probes 0-5 use channels 1-4, 7-8. -/
def cht_channel_map : List Nat := [1, 2, 3, 4, 7, 8]

/-- `SMTCReader.read_cht_probe(probe_id)`.  With a sensor present: out-of-range
indices return `0.0`; otherwise the mapped channel is read and converted
Celsius→Fahrenheit, and any exception from the read is caught and becomes
`0.0`.  With no sensor: `300.0 + random.uniform(0, 100)` regardless of index. -/
def read_cht_probe (cht_sensor : Option (Nat → Except String ℚ)) (randVal : ℚ)
    (probe_id : Int) : ℚ :=
  match cht_sensor with
  | some get_temp =>
      if probe_id < 0 ∨ (cht_channel_map.length : Int) ≤ probe_id then 0
      else
        match get_temp (cht_channel_map.getD probe_id.toNat 0) with
        | .ok temp_c => temp_c * 9 / 5 + 32
        | .error _ => 0
  | none => 300 + randVal

/-- `SMTCReader.read_egt_probe(probe_id)`: as `read_cht_probe` but on the EGT
sensor and with simulation fallback `1200.0 + random.uniform(0, 300)`. -/
def read_egt_probe (egt_sensor : Option (Nat → Except String ℚ)) (randVal : ℚ)
    (probe_id : Int) : ℚ :=
  match egt_sensor with
  | some get_temp =>
      if probe_id < 0 ∨ (egt_channel_map.length : Int) ≤ probe_id then 0
      else
        match get_temp (egt_channel_map.getD probe_id.toNat 0) with
        | .ok temp_c => temp_c * 9 / 5 + 32
        | .error _ => 0
  | none => 1200 + randVal

/-! ## Sampler (`read_temperature_data`)

The sweep is embedded with an explicit step counter threaded in program
order: each probe read advances the counter by one, and the final
`time.time()` call samples `clock` at the counter's value at that point.
`rand s` is the `random.uniform` draw consumed by the read performed at step
`s` (unused when hardware is present). -/

/-- A snapshot as built by `read_temperature_data`: the dict
`{"cht": ..., "egt": ..., "timestamp": ..., "unit": "F"}`. -/
structure Snapshot where
  cht : List ℚ
  egt : List ℚ
  timestamp : ℚ
  unit : String
deriving DecidableEq

/-- One `for probe_id in range(...)` loop of `read_temperature_data`:
read each listed probe in order, threading the step counter. -/
def readProbes (read1 : ℚ → Int → ℚ) (rand : Nat → ℚ) :
    List Nat → Nat → List ℚ × Nat
  | [], s => ([], s)
  | i :: rest, s =>
      let v := read1 (rand s) (Int.ofNat i)
      let (vs, s1) := readProbes read1 rand rest (s + 1)
      (v :: vs, s1)

/-- `read_temperature_data()`: read all 6 CHT probes, then all 6 EGT probes,
then build the result dict whose `"timestamp"` entry evaluates `time.time()`
at that point.  Returns the snapshot and the final step counter. -/
def read_temperature_data (cht_sensor egt_sensor : Option (Nat → Except String ℚ))
    (rand clock : Nat → ℚ) (s0 : Nat) : Snapshot × Nat :=
  let r1 := readProbes (read_cht_probe cht_sensor) rand (List.range 6) s0
  let r2 := readProbes (read_egt_probe egt_sensor) rand (List.range 6) r1.2
  (⟨r1.1, r2.1, clock r2.2, "F"⟩, r2.2 + 1)

/-! ## Temperature frame payload (`json.dumps(temp_data).encode('utf-8')`)

The dict built by `read_temperature_data` holds exactly: two lists of floats,
a float, and a string; `json.dumps` maps it to a JSON object whose members
appear in insertion order.  `render` stands for Python's float-to-text
rendering (`repr`), which json.dumps applies to each number. -/

/-- The JSON values occurring in the temperature payload. -/
inductive JVal where
  | num (q : ℚ)
  | str (s : String)
  | numArr (l : List ℚ)
deriving DecidableEq

/-- The JSON object `json.dumps` serializes for a snapshot: the dict's members
in insertion order. -/
def snapshotToJson (s : Snapshot) : List (String × JVal) :=
  [("cht", .numArr s.cht), ("egt", .numArr s.egt),
   ("timestamp", .num s.timestamp), ("unit", .str s.unit)]

/-- `json.dumps` on one member value (default separators; the strings involved
contain no characters that JSON string escaping would rewrite). -/
def dumpVal (render : ℚ → String) : JVal → String
  | .num q => render q
  | .str s => "\"" ++ s ++ "\""
  | .numArr l => "[" ++ String.intercalate ", " (l.map render) ++ "]"

/-- `json.dumps` on the whole object, default separators `', '` and `': '`. -/
def dumpObj (render : ℚ → String) (fields : List (String × JVal)) : String :=
  "\x7b" ++ String.intercalate ", "
      (fields.map fun p => "\"" ++ p.1 ++ "\": " ++ dumpVal render p.2) ++ "\x7d"

/-- `.encode('utf-8')`: the UTF-8 bytes of a string. -/
def utf8Bytes (s : String) : List Nat :=
  s.toUTF8.toList.map fun b => b.toNat

/-- The payload bytes `send_peertalk_frame` computes for a snapshot dict:
`json.dumps(temp_data).encode('utf-8')`. -/
def temperaturePayloadBytes (render : ℚ → String) (s : Snapshot) : List Nat :=
  utf8Bytes (dumpObj render (snapshotToJson s))

/-- The full frame `main` sends for a snapshot:
`send_peertalk_frame(sock, FRAME_TYPE_TEMPERATURE, temp_data)`. -/
def sendTemperatureFrame (render : ℚ → String) (s : Snapshot) : List Nat :=
  send_peertalk_frame_bytes FRAME_TYPE_TEMPERATURE (temperaturePayloadBytes render s)

/-! ## Transport Supervisor (`connect_to_ipad` and the loops of `main`)

`main` is two nested `while True` loops.  The environment's behaviour is a
finite script of events; the model returns the observable actions the script
provokes, in order.  A script that runs out of events corresponds to a
process still running (`while True` never ends on its own). -/

/-- How one `connect_to_ipad()` call can end. -/
inductive ConnectOutcome where
  | success
  | timeout
  | refused
  | otherError
deriving DecidableEq

/-- `connect_to_ipad()`: returns the socket on success; every failure kind
(`socket.timeout`, `ConnectionRefusedError`, any other `Exception`) is caught
inside the function, logged, and turned into `None` — no exception escapes. -/
def connect_to_ipad : ConnectOutcome → Option Unit
  | .success => some ()
  | .timeout => none
  | .refused => none
  | .otherError => none

/-- What the environment does on one iteration of the inner streaming loop. -/
inductive StreamEv where
  /-- `send_peertalk_frame` returns `True` and the 1-second sleep completes. -/
  | writeOk
  /-- `send_peertalk_frame` returns `False` (send error caught inside it). -/
  | writeFail
  /-- the write succeeds, then `KeyboardInterrupt` arrives during `sleep(1)`. -/
  | intr
  /-- some other exception is raised during the cycle. -/
  | exn
deriving DecidableEq

/-- Why the inner streaming loop stopped — or `running` if the event script
ended with the loop still going. -/
inductive StreamExit where
  | running
  | failed
  | interrupted
  | errored
deriving DecidableEq

/-- Observable actions of `main`. -/
inductive Action where
  /-- a call to `connect_to_ipad()` -/
  | connectAttempt
  /-- a frame confirmed sent (the per-frame confirmation log line) -/
  | frameSent
  /-- `sock.close()` -/
  | closed
  /-- the 5-second retry `sleep` between connect attempts -/
  | retrySleep
  /-- `sys.exit(0)` -/
  | exit0
deriving DecidableEq

/-- The inner `while True` streaming loop of `main`: on `writeOk` a frame is
confirmed and the loop continues; `writeFail` breaks (the failed frame is not
confirmed); `intr` is caught by the inner `except KeyboardInterrupt` and
breaks after the frame already sent this cycle; `exn` is caught by the inner
`except Exception` and breaks. -/
def streamLoop : List StreamEv → List Action × StreamExit
  | [] => ([], .running)
  | .writeOk :: rest =>
      let r := streamLoop rest
      (.frameSent :: r.1, r.2)
  | .writeFail :: _ => ([], .failed)
  | .intr :: _ => ([.frameSent], .interrupted)
  | .exn :: _ => ([], .errored)

/-- One outer-loop iteration's worth of environment behaviour. -/
inductive OuterEv where
  /-- `connect_to_ipad()` returns `None`; the flag tells whether
  `KeyboardInterrupt` arrives during the 5-second retry sleep (that sleep sits
  in the outer `try`, so the interrupt reaches `sys.exit(0)`). -/
  | connFail (interruptedInRetrySleep : Bool)
  /-- the connect succeeds and the inner streaming loop sees these events. -/
  | connOk (evs : List StreamEv)
deriving DecidableEq

/-- The outer `while True` loop of `main`.  After the inner loop breaks — for
any reason — `sock.close()` runs and the outer loop iterates again (a fresh
connect attempt); `sys.exit(0)` is reached only by a `KeyboardInterrupt`
raised outside the inner loop's own handlers. -/
def mainLoop : List OuterEv → List Action
  | [] => []
  | .connFail intr :: rest =>
      .connectAttempt :: (if intr then [.exit0] else .retrySleep :: mainLoop rest)
  | .connOk evs :: rest =>
      let r := streamLoop evs
      .connectAttempt :: (r.1 ++
        match r.2 with
        | .running => []
        | _ => .closed :: mainLoop rest)

/-! ## Helper lemmas -/

/-- Round-trip of one big-endian field. -/
theorem fromBE4_toBE4 (v : Nat) (h : v < 2 ^ 32) :
    fromBE4 (v / 2 ^ 24 % 256) (v / 2 ^ 16 % 256) (v / 2 ^ 8 % 256) (v % 256) = v := by
  unfold fromBE4
  omega

/-- Unfolding of one family sweep over `range 6`. -/
theorem readProbes_range6 (read1 : ℚ → Int → ℚ) (rand : Nat → ℚ) (s0 : Nat) :
    readProbes read1 rand (List.range 6) s0
      = ([read1 (rand s0) 0, read1 (rand (s0 + 1)) 1, read1 (rand (s0 + 2)) 2,
          read1 (rand (s0 + 3)) 3, read1 (rand (s0 + 4)) 4, read1 (rand (s0 + 5)) 5],
         s0 + 6) :=
  rfl

/-- A run of `k` successful sends followed by an interrupt during the sleep
confirms exactly `k + 1` frames and exits the streaming loop as interrupted. -/
theorem streamLoop_writeOk_then_intr (k : Nat) (junk : List StreamEv) :
    streamLoop (List.replicate k .writeOk ++ .intr :: junk)
      = (List.replicate (k + 1) Action.frameSent, .interrupted) := by
  induction k with
  | zero => rfl
  | succ j ih => simp [List.replicate_succ, streamLoop, ih]

/-- The supervisor's trace under `m` consecutive failed connect attempts. -/
theorem mainLoop_connFail_replicate (m : Nat) :
    mainLoop (List.replicate m (OuterEv.connFail false))
      = List.flatten (List.replicate m [Action.connectAttempt, Action.retrySleep]) := by
  induction m with
  | zero => rfl
  | succ j ih => simp [List.replicate_succ, mainLoop, ih]

/-! ## Claims -/

/-- C1: for every frame type, tag, and payload whose length fits an unsigned
32-bit field, the encoded frame is exactly the fixed 16-byte big-endian header
(version `1` at offset 0, frame type at offset 4, tag at offset 8,
payloadSize at offset 12, 4 bytes each) followed immediately by the payload;
the payloadSize field equals the payload's exact byte length, and decoding the
first 16 bytes recovers `(version, type, tag, payloadSize)` exactly. -/
theorem frame_codec_layout_roundtrip (frame_type tag : Nat) (payload : List Nat)
    (hty : frame_type < 2 ^ 32) (htag : tag < 2 ^ 32) (hlen : payload.length < 2 ^ 32) :
    (encodeFrame PTPROTOCOL_VERSION frame_type tag payload).length = 16 + payload.length ∧
    List.take 16 (encodeFrame PTPROTOCOL_VERSION frame_type tag payload)
      = toBE4 1 ++ toBE4 frame_type ++ toBE4 tag ++ toBE4 payload.length ∧
    List.drop 16 (encodeFrame PTPROTOCOL_VERSION frame_type tag payload) = payload ∧
    decodeFrameHeader (List.take 16 (encodeFrame PTPROTOCOL_VERSION frame_type tag payload))
      = (1, frame_type, tag, payload.length) := by
  refine ⟨?_, rfl, rfl, ?_⟩
  · show (toBE4 1 ++ toBE4 frame_type ++ toBE4 tag ++ toBE4 payload.length
      ++ payload).length = 16 + payload.length
    simp [toBE4]
    omega
  · show (fromBE4 (1 / 2 ^ 24 % 256) (1 / 2 ^ 16 % 256) (1 / 2 ^ 8 % 256) (1 % 256),
      fromBE4 (frame_type / 2 ^ 24 % 256) (frame_type / 2 ^ 16 % 256)
        (frame_type / 2 ^ 8 % 256) (frame_type % 256),
      fromBE4 (tag / 2 ^ 24 % 256) (tag / 2 ^ 16 % 256) (tag / 2 ^ 8 % 256) (tag % 256),
      fromBE4 (payload.length / 2 ^ 24 % 256) (payload.length / 2 ^ 16 % 256)
        (payload.length / 2 ^ 8 % 256) (payload.length % 256))
      = (1, frame_type, tag, payload.length)
    rw [fromBE4_toBE4 1 (by norm_num), fromBE4_toBE4 frame_type hty,
      fromBE4_toBE4 tag htag, fromBE4_toBE4 payload.length hlen]

/-- C1 witness: the layout theorem at frame type 100, tag 7, payload `[65, 66]`. -/
theorem frame_codec_layout_roundtrip_witness :
    (100 : Nat) < 2 ^ 32 ∧ (7 : Nat) < 2 ^ 32 ∧ ([65, 66] : List Nat).length < 2 ^ 32 ∧
    ((encodeFrame PTPROTOCOL_VERSION 100 7 [65, 66]).length = 16 + ([65, 66] : List Nat).length ∧
     List.take 16 (encodeFrame PTPROTOCOL_VERSION 100 7 [65, 66])
       = toBE4 1 ++ toBE4 100 ++ toBE4 7 ++ toBE4 ([65, 66] : List Nat).length ∧
     List.drop 16 (encodeFrame PTPROTOCOL_VERSION 100 7 [65, 66]) = [65, 66] ∧
     decodeFrameHeader (List.take 16 (encodeFrame PTPROTOCOL_VERSION 100 7 [65, 66]))
       = (1, 100, 7, ([65, 66] : List Nat).length)) :=
  ⟨by norm_num, by norm_num, by decide,
   frame_codec_layout_roundtrip 100 7 [65, 66] (by norm_num) (by norm_num) (by decide)⟩

/-- C2 counterexample: with the hardware handle absent (simulation mode), the
out-of-range probe index 6 does not return the zero sentinel: the simulation
fallback runs before any bounds check, so `read_cht_probe` returns
`300 + uniform(0,100)` (here the draw is 0, giving 300) and `read_egt_probe`
returns 1200 — both nonzero. -/
theorem out_of_range_not_zero_in_simulation :
    read_cht_probe none 0 6 = 300 ∧ (300 : ℚ) ≠ 0 ∧
    read_egt_probe none 0 6 = 1200 ∧ (1200 : ℚ) ≠ 0 :=
  ⟨by norm_num [read_cht_probe], by norm_num,
   by norm_num [read_egt_probe], by norm_num⟩

/-- C2 amended: only when the hardware handle is present do `read_cht_probe`
and `read_egt_probe` return the zero sentinel `0.0` for every probe index
outside the mapping-table bounds (negative or `≥ 6`), for every behaviour of
the underlying sensor; when the handle is absent (simulation mode) the bounds
check is skipped and the family's simulated value (`300 + u` resp. `1200 + u`)
is returned for every index.  In both modes the operation does not raise
(it is total). -/
theorem out_of_range_probe_sentinel (getC getE : Nat → Except String ℚ) (r : ℚ)
    (i : Int) (h : i < 0 ∨ 6 ≤ i) :
    read_cht_probe (some getC) r i = 0 ∧ read_egt_probe (some getE) r i = 0 ∧
    read_cht_probe none r i = 300 + r ∧ read_egt_probe none r i = 1200 + r := by
  have h6 : ((cht_channel_map.length : Nat) : Int) = 6 := rfl
  have h6e : ((egt_channel_map.length : Nat) : Int) = 6 := rfl
  refine ⟨?_, ?_, rfl, rfl⟩
  · simp only [read_cht_probe, h6]
    rw [if_pos h]
  · simp only [read_egt_probe, h6e]
    rw [if_pos h]

/-- C2 witness: the amended sentinel theorem at probe index 6 with a sensor
that always reads 25 °C and a zero random draw. -/
theorem out_of_range_probe_sentinel_witness :
    ((6 : Int) < 0 ∨ (6 : Int) ≤ 6) ∧
    (read_cht_probe (some fun _ => Except.ok 25) 0 6 = 0 ∧
     read_egt_probe (some fun _ => Except.ok 25) 0 6 = 0 ∧
     read_cht_probe none 0 6 = 300 + 0 ∧
     read_egt_probe none 0 6 = 1200 + 0) :=
  ⟨Or.inr (by norm_num),
   out_of_range_probe_sentinel (fun _ => Except.ok 25) (fun _ => Except.ok 25) 0 6
     (Or.inr (by norm_num))⟩

/-- C3 counterexample: a `KeyboardInterrupt` delivered during the inter-frame
sleep is caught by the *inner* loop's own handler, which only breaks the
streaming loop; the connection is closed but the outer supervisor loop then
makes a fresh connect attempt — the process does not exit (no `sys.exit(0)` in
the trace), contradicting "breaking out of both loops, exiting with code 0". -/
theorem interrupt_in_stream_does_not_exit :
    mainLoop [OuterEv.connOk [StreamEv.intr], OuterEv.connFail false]
      = [Action.connectAttempt, Action.frameSent, Action.closed,
         Action.connectAttempt, Action.retrySleep] ∧
    Action.exit0 ∉ mainLoop [OuterEv.connOk [StreamEv.intr], OuterEv.connFail false] := by
  decide

/-- C3 amended: a `KeyboardInterrupt` during the inter-frame sleep closes the
open Connection and ends the current streaming session with no further frames
sent on it, but it breaks only the streaming loop: the outer supervisor loop
continues with a fresh connect attempt.  The process exits with code 0 only
when an interrupt is raised outside the streaming loop's handlers, e.g. during
the 5-second inter-connect retry sleep. -/
theorem interrupt_closes_connection_supervisor_continues
    (k : Nat) (junk : List StreamEv) (rest : List OuterEv) :
    mainLoop (OuterEv.connOk (List.replicate k .writeOk ++ .intr :: junk) :: rest)
      = Action.connectAttempt ::
          (List.replicate (k + 1) Action.frameSent ++ Action.closed :: mainLoop rest) ∧
    mainLoop (OuterEv.connFail true :: rest) = [Action.connectAttempt, Action.exit0] := by
  refine ⟨?_, rfl⟩
  simp [mainLoop, streamLoop_writeOk_then_intr]

/-- C4: every snapshot `read_temperature_data` returns has exactly 6 CHT and
exactly 6 EGT readings, one per probe in ascending probe-index order (probe
`i`'s reading is the result of the corresponding reader call), plus the unit
tag `"F"` (and a timestamp field, present by construction); this holds in
simulation mode and for every hardware sensor behaviour, and the operation is
total — reader failures were already absorbed inside the Channel Reader, so no
partial snapshot can be produced. -/
theorem snapshot_always_complete (cs es : Option (Nat → Except String ℚ))
    (rand clock : Nat → ℚ) (s0 : Nat) :
    (read_temperature_data cs es rand clock s0).1.cht.length = 6 ∧
    (read_temperature_data cs es rand clock s0).1.egt.length = 6 ∧
    (read_temperature_data cs es rand clock s0).1.cht
      = (List.range 6).map (fun i => read_cht_probe cs (rand (s0 + i)) (Int.ofNat i)) ∧
    (read_temperature_data cs es rand clock s0).1.egt
      = (List.range 6).map (fun i => read_egt_probe es (rand (s0 + 6 + i)) (Int.ofNat i)) ∧
    (read_temperature_data cs es rand clock s0).1.unit = "F" :=
  ⟨rfl, rfl, rfl, rfl, rfl⟩

/-- C5 counterexample: with a clock that returns 0 at the sweep's start and 1
at every later step, the snapshot's timestamp is 1, not the clock's value at
the start of the sweep — `time.time()` is evaluated inside the result dict,
after both probe-reading loops, so "taken at the start, before any probe is
read" fails. -/
theorem timestamp_not_at_sweep_start :
    (read_temperature_data none none (fun _ => 0)
        (fun s => if s = 0 then 0 else 1) 0).1.timestamp = 1 ∧
    (fun s : Nat => if s = 0 then (0 : ℚ) else 1) 0 = 0 ∧ (1 : ℚ) ≠ 0 :=
  ⟨rfl, rfl, one_ne_zero⟩

/-- C5 amended: the capture timestamp is taken exactly once per sweep, but at
the *end* of the sweep: after the 12 probe reads at steps `s0 … s0 + 11`, the
clock is sampled once at step `s0 + 12` — not per-probe and not before the
readings.  The readings themselves never consult the clock (they are identical
under any two clocks). -/
theorem timestamp_taken_once_at_sweep_end (cs es : Option (Nat → Except String ℚ))
    (rand clock clock2 : Nat → ℚ) (s0 : Nat) :
    (read_temperature_data cs es rand clock s0).1.timestamp = clock (s0 + 12) ∧
    (read_temperature_data cs es rand clock s0).2 = s0 + 13 ∧
    (read_temperature_data cs es rand clock s0).1.cht
      = (read_temperature_data cs es rand clock2 s0).1.cht ∧
    (read_temperature_data cs es rand clock s0).1.egt
      = (read_temperature_data cs es rand clock2 s0).1.egt :=
  ⟨rfl, rfl, rfl, rfl⟩

/-- C6: if the frame write succeeds on the 1st and 2nd calls and fails on the
3rd, exactly 2 frames are confirmed sent, the streaming loop stops at once,
the Connection is closed, and the supervisor returns to Disconnected — its
next action is a fresh connect attempt. -/
theorem write_fail_on_third_call (rest : List OuterEv) :
    mainLoop (OuterEv.connOk [.writeOk, .writeOk, .writeFail] :: rest)
      = Action.connectAttempt :: Action.frameSent :: Action.frameSent ::
          Action.closed :: mainLoop rest ∧
    mainLoop [OuterEv.connOk [.writeOk, .writeOk, .writeFail], OuterEv.connFail false]
      = [Action.connectAttempt, Action.frameSent, Action.frameSent,
         Action.closed, Action.connectAttempt, Action.retrySleep] :=
  ⟨rfl, rfl⟩

/-- C7: every connect failure kind (timeout, refusal, other error) is absorbed
inside `connect_to_ipad` and becomes `None`; under `n` consecutive failed
connect attempts the supervisor produces exactly `n` connect attempts each
followed by the fixed 5-second retry sleep, never exits (no `sys.exit(0)` in
the trace) and never streams (no frame sent) — for every `n`, i.e. the retry
continues indefinitely. -/
theorem connect_failure_retries_forever (n : Nat) :
    connect_to_ipad .timeout = none ∧
    connect_to_ipad .refused = none ∧
    connect_to_ipad .otherError = none ∧
    mainLoop (List.replicate n (OuterEv.connFail false))
      = List.flatten (List.replicate n [Action.connectAttempt, Action.retrySleep]) ∧
    Action.exit0 ∉ mainLoop (List.replicate n (OuterEv.connFail false)) ∧
    Action.frameSent ∉ mainLoop (List.replicate n (OuterEv.connFail false)) := by
  refine ⟨rfl, rfl, rfl, mainLoop_connFail_replicate n, ?_, ?_⟩
  · rw [mainLoop_connFail_replicate n]
    simp [List.mem_flatten, List.mem_replicate]
  · rw [mainLoop_connFail_replicate n]
    simp [List.mem_flatten, List.mem_replicate]

/-- C8: with no hardware handle (simulation mode), every simulated CHT reading
for an in-range probe index lies in `[300, 400]` and every simulated EGT
reading lies in `[1200, 1500]` Fahrenheit, for every admissible draw of
`random.uniform(0, 100)` resp. `random.uniform(0, 300)`. -/
theorem simulated_readings_bounded (i : Int) (rc re : ℚ)
    (_hi0 : 0 ≤ i) (_hi6 : i < 6)
    (hc0 : 0 ≤ rc) (hc1 : rc ≤ 100) (he0 : 0 ≤ re) (he1 : re ≤ 300) :
    (300 ≤ read_cht_probe none rc i ∧ read_cht_probe none rc i ≤ 400) ∧
    (1200 ≤ read_egt_probe none re i ∧ read_egt_probe none re i ≤ 1500) := by
  simp only [read_cht_probe, read_egt_probe]
  constructor <;> constructor <;> linarith

/-- C8 witness: the bound theorem at probe 0 with draws 50 and 150. -/
theorem simulated_readings_bounded_witness :
    ((0 : Int) ≤ 0 ∧ (0 : Int) < 6 ∧ (0 : ℚ) ≤ 50 ∧ (50 : ℚ) ≤ 100 ∧
     (0 : ℚ) ≤ 150 ∧ (150 : ℚ) ≤ 300) ∧
    ((300 ≤ read_cht_probe none 50 0 ∧ read_cht_probe none 50 0 ≤ 400) ∧
     (1200 ≤ read_egt_probe none 150 0 ∧ read_egt_probe none 150 0 ≤ 1500)) :=
  ⟨⟨le_refl 0, by norm_num, by norm_num, by norm_num, by norm_num, by norm_num⟩,
   simulated_readings_bounded 0 50 150 (le_refl 0) (by norm_num) (by norm_num)
     (by norm_num) (by norm_num) (by norm_num)⟩

/-- C9: the payload of every temperature frame is the UTF-8 encoding of the
JSON serialization of an object with exactly the members `"cht"`, `"egt"`,
`"timestamp"`, `"unit"` in that order, where `"cht"` and `"egt"` are 6-element
numeric arrays, `"timestamp"` is the snapshot's numeric timestamp, and
`"unit"` is the string `"F"` — for every sensor mode, oracle, and float
rendering; and the frame sent is exactly that payload behind the 16-byte
header. -/
theorem temperature_payload_shape (cs es : Option (Nat → Except String ℚ))
    (rand clock : Nat → ℚ) (s0 : Nat) (render : ℚ → String) :
    (snapshotToJson (read_temperature_data cs es rand clock s0).1).map Prod.fst
      = ["cht", "egt", "timestamp", "unit"] ∧
    (∃ l, (snapshotToJson (read_temperature_data cs es rand clock s0).1).lookup "cht"
        = some (JVal.numArr l) ∧ l.length = 6) ∧
    (∃ l, (snapshotToJson (read_temperature_data cs es rand clock s0).1).lookup "egt"
        = some (JVal.numArr l) ∧ l.length = 6) ∧
    (snapshotToJson (read_temperature_data cs es rand clock s0).1).lookup "timestamp"
      = some (JVal.num (read_temperature_data cs es rand clock s0).1.timestamp) ∧
    (snapshotToJson (read_temperature_data cs es rand clock s0).1).lookup "unit"
      = some (JVal.str "F") ∧
    sendTemperatureFrame render (read_temperature_data cs es rand clock s0).1
      = send_peertalk_frame_bytes FRAME_TYPE_TEMPERATURE
          (utf8Bytes (dumpObj render (snapshotToJson (read_temperature_data cs es rand clock s0).1))) ∧
    List.drop 16 (sendTemperatureFrame render (read_temperature_data cs es rand clock s0).1)
      = utf8Bytes (dumpObj render (snapshotToJson (read_temperature_data cs es rand clock s0).1)) :=
  ⟨rfl, ⟨_, rfl, rfl⟩, ⟨_, rfl, rfl⟩, rfl, rfl, rfl, rfl⟩

/-- C10: every frame the sender transmits carries tag 0: the byte builder of
`send_peertalk_frame` instantiates the header's tag field with the literal `0`
and has no tag parameter, so the decoded tag field of any frame it produces is
`0`, for every frame type and payload. -/
theorem sent_frame_tag_always_zero (frame_type : Nat) (payload : List Nat) :
    send_peertalk_frame_bytes frame_type payload
      = encodeFrame PTPROTOCOL_VERSION frame_type 0 payload ∧
    (decodeFrameHeader (send_peertalk_frame_bytes frame_type payload)).2.2.1 = 0 :=
  ⟨rfl, rfl⟩

end PeertalkTempSender
